import Mathlib

/-!
Verification development for the zone-plate generator repository
(`src/zone_plate_ui`).  The definitions below are shallow embeddings of the
Python source: dictionaries become association lists, Python floats become
rationals (`Rat`), `time.time()` values become rationals, the file system
becomes an association list from path to size, and the Ghostscript subprocess
becomes an oracle describing the observable outcome of the run.
-/

set_option maxHeartbeats 1000000

namespace ZonePlate

/-- A Python value as it can occur in the parameter dictionary handled by
`ZonePlateGenerator` (`models/zone_plate.py`).  Python floats are embedded as
rationals; every Python float is exactly representable this way. -/
inductive PyVal where
  | VInt (n : Int)
  | VRat (q : Rat)
  | VBool (b : Bool)
  | VStr (s : String)
deriving DecidableEq, Repr

/-- Value of a decimal digit list, most significant first. -/
def digitsToNat (l : List Char) : Nat :=
  l.foldl (fun a c => a * 10 + (c.toNat - 48)) 0

/-- Consume an optional leading sign; returns whether the sign was `-`. -/
def parseSign : List Char → Bool × List Char
  | '-' :: t => (true, t)
  | '+' :: t => (false, t)
  | l => (false, l)

/-- Parse an unsigned decimal mantissa (digits, optionally with a decimal
point, at least one digit overall), returning its value and the rest. -/
def parseMantissa (l : List Char) : Option (Rat × List Char) :=
  let ip := l.takeWhile Char.isDigit
  let r1 := l.dropWhile Char.isDigit
  match r1 with
  | '.' :: r2 =>
    let fp := r2.takeWhile Char.isDigit
    let r3 := r2.dropWhile Char.isDigit
    if ip.isEmpty && fp.isEmpty then none
    else some ((digitsToNat ip : Rat) + (digitsToNat fp : Rat) / (10 ^ fp.length : Rat), r3)
  | _ => if ip.isEmpty then none else some ((digitsToNat ip : Rat), r1)

/-- Model of Python `float(s)` on a string: strip surrounding whitespace, then
optional sign, decimal mantissa and optional exponent.  (Python additionally
accepts `inf`/`nan` and digit-group underscores; those forms play no role in
this development and are outside the model.) -/
def pyFloatOfChars (l0 : List Char) : Option Rat :=
  let l1 := (l0.dropWhile Char.isWhitespace).reverse.dropWhile Char.isWhitespace |>.reverse
  let (neg, l2) := parseSign l1
  match parseMantissa l2 with
  | none => none
  | some (m, rest) =>
    match rest with
    | [] => some (if neg then -m else m)
    | e :: r2 =>
      if e = 'e' ∨ e = 'E' then
        let (eneg, r3) := parseSign r2
        let ed := r3.takeWhile Char.isDigit
        let r4 := r3.dropWhile Char.isDigit
        if ed.isEmpty ∨ ¬ r4.isEmpty then none
        else
          let ev := digitsToNat ed
          let mag : Rat := if eneg then m / 10 ^ ev else m * 10 ^ ev
          some (if neg then -mag else mag)
      else none

/-- Model of Python `int(s)` on a string: surrounding whitespace, optional
sign, decimal digits. -/
def pyIntOfChars (l0 : List Char) : Option Int :=
  let l1 := (l0.dropWhile Char.isWhitespace).reverse.dropWhile Char.isWhitespace |>.reverse
  let (neg, l2) := parseSign l1
  let ds := l2.takeWhile Char.isDigit
  let rest := l2.dropWhile Char.isDigit
  if ds.isEmpty ∨ ¬ rest.isEmpty then none
  else some (if neg then -(digitsToNat ds : Int) else (digitsToNat ds : Int))

/-- Model of Python `float(v)`: `none` is the `(ValueError, TypeError)` case
caught by `validate_parameters`. -/
def pyFloat : PyVal → Option Rat
  | .VInt n => some (n : Rat)
  | .VRat q => some q
  | .VBool b => some (if b then 1 else 0)
  | .VStr s => pyFloatOfChars s.toList

/-- Model of Python `int(v)`: floats truncate toward zero, strings must be
integer literals; `none` is the `(ValueError, TypeError)` case. -/
def pyInt : PyVal → Option Int
  | .VInt n => some n
  | .VRat q => some (Int.tdiv q.num (q.den : Int))
  | .VBool b => some (if b then 1 else 0)
  | .VStr s => pyIntOfChars s.toList

/-- Smallest exponent `k ≤ 59` with `d ∣ 10 ^ k`; exists for the denominator
of every rational that is the exact value of a Python float of modest
exponent (such denominators are powers of two). -/
def pow10Multiple (d : Nat) : Option Nat :=
  (List.range 60).find? (fun k => 10 ^ k % d == 0)

/-- Left-pad a numeral string with zeros to width `k`. -/
def padZerosTo (k : Nat) (s : String) : String :=
  String.mk (List.replicate (k - s.length) '0') ++ s

/-- Drop trailing `'0'` characters, keeping at least one digit. -/
def stripTrailingZeros (s : String) : String :=
  let l := (s.toList.reverse.dropWhile (fun c => c == '0')).reverse
  if l.isEmpty then "0" else String.mk l

/-- Model of Python `str` on a float embedded as a rational: exact decimal
expansion with at least one fractional digit.  (Python switches to scientific
notation for very small or very large magnitudes; no claim in this
development depends on that regime, nor on the fallback branch.) -/
def ratPyStr (q : Rat) : String :=
  let sign := if q.num < 0 then "-" else ""
  let na : Nat := q.num.natAbs
  match pow10Multiple q.den with
  | some k =>
    if k = 0 then sign ++ toString (na / q.den) ++ ".0"
    else
      let scaled := na * 10 ^ k / q.den
      sign ++ toString (scaled / 10 ^ k) ++ "." ++
        stripTrailingZeros (padZerosTo k (toString (scaled % 10 ^ k)))
  | none => sign ++ toString na ++ "/" ++ toString q.den

/-- Model of Python `str(v)` as used by `create_temp_args_file`
(`models/zone_plate.py:65`): note that booleans render capitalized. -/
def pyStr : PyVal → String
  | .VInt n => toString n
  | .VRat q => ratPyStr q
  | .VBool b => if b then "True" else "False"
  | .VStr s => s

/-- A Python `dict`, embedded as an association list in insertion order
(dict keys are unique). -/
abbrev AList (κ β : Type) := List (κ × β)

/-- `dict` lookup (`d.get(k)` / `d[k]`). -/
def alookup {κ β : Type} [DecidableEq κ] : AList κ β → κ → Option β
  | [], _ => none
  | (k, v) :: t, key => if k = key then some v else alookup t key

/-- `dict` update `d[k] = v`: replace in place, or append a fresh key. -/
def aset {κ β : Type} [DecidableEq κ] : AList κ β → κ → β → AList κ β
  | [], key, v => [(key, v)]
  | (k, w) :: t, key, v => if k = key then (key, v) :: t else (k, w) :: aset t key v

/-- `dict.pop(k, None)`: with unique keys this is exactly dropping the entry. -/
def aerase {κ β : Type} [DecidableEq κ] (m : AList κ β) (key : κ) : AList κ β :=
  m.filter (fun e => ! decide (e.1 = key))

@[simp] theorem alookup_aerase_self {κ β : Type} [DecidableEq κ]
    (m : AList κ β) (key : κ) :
    alookup (aerase m key) key = none := by
  induction m with
  | nil => rfl
  | cons e t ih =>
    by_cases h : e.1 = key
    · simpa [aerase, h] using ih
    · simpa [aerase, alookup, h] using ih

@[simp] theorem alookup_aset_self {κ β : Type} [DecidableEq κ]
    (m : AList κ β) (key : κ) (v : β) :
    alookup (aset m key v) key = some v := by
  induction m with
  | nil => simp [aset, alookup]
  | cons e t ih =>
    by_cases h : e.1 = key
    · simp [aset, alookup, h]
    · simp [aset, alookup, h, ih]

/-- The parameter dictionary handed to `validate_parameters`. -/
abbrev Params := AList String PyVal

/-- `params.get(k, d)`. -/
def pgetD (p : Params) (k : String) (d : PyVal) : PyVal :=
  (alookup p k).getD d

/-- `models/zone_plate.py:78-83`: the `focal_length` check. -/
def focal_length_error (p : Params) : Option String :=
  match pyFloat (pgetD p "focal_length" (.VInt 0)) with
  | none => some "Focal length must be a valid number"
  | some x => if x ≤ 0 then some "Focal length must be positive" else none

/-- `models/zone_plate.py:85-90`: the `rings` check. -/
def rings_error (p : Params) : Option String :=
  match pyInt (pgetD p "rings" (.VInt 0)) with
  | none => some "Number of rings must be a valid integer"
  | some r => if r ≤ 0 ∨ r > 50 then some "Number of rings must be between 1 and 50" else none

/-- `models/zone_plate.py:92-97`: the `punch_diameter` check. -/
def punch_diameter_error (p : Params) : Option String :=
  match pyFloat (pgetD p "punch_diameter" (.VInt 0)) with
  | none => some "Punch diameter must be a valid number"
  | some x => if x ≤ 0 then some "Punch diameter must be positive" else none

/-- `models/zone_plate.py:99-104`: the `wavelength` check. -/
def wavelength_error (p : Params) : Option String :=
  match pyFloat (pgetD p "wavelength" (.VInt 0)) with
  | none => some "Wavelength must be a valid number"
  | some x => if x ≤ 0 then some "Wavelength must be positive" else none

/-- `models/zone_plate.py:106-111`: the `output_resolution` check (default 300). -/
def output_resolution_error (p : Params) : Option String :=
  match pyInt (pgetD p "output_resolution" (.VInt 300)) with
  | none => some "Resolution must be a valid integer"
  | some r => if r ≤ 299 ∨ r > 9600 then some "Resolution must be between 300 and 9600 DPI" else none

/-- `models/zone_plate.py:113-114`: membership of `params.get('type')` in the
keys of `valid_types`; a missing or non-string value is never a member. -/
def type_error (validTypes : List String) (p : Params) : Option String :=
  if (match alookup p "type" with
      | some (.VStr s) => validTypes.contains s
      | _ => false) then none
  else some ("Type must be one of: " ++ String.intercalate ", " validTypes)

/-- `models/zone_plate.py:116-117`: membership of `params.get('output_format')`
in `valid_formats`. -/
def output_format_error (validFormats : List String) (p : Params) : Option String :=
  if (match alookup p "output_format" with
      | some (.VStr s) => validFormats.contains s
      | _ => false) then none
  else some ("Output format must be one of: " ++ String.intercalate ", " validFormats)

/-- One entry of the `errors` dict, as the sequential code inserts it. -/
def errEntry (k : String) : Option String → List (String × String)
  | some m => [(k, m)]
  | none => []

/-- `ZonePlateGenerator.validate_parameters` (`models/zone_plate.py:74-119`).
The Python function fills an `errors` dict with at most one entry per field,
in source order; with its keys pairwise distinct, the dict is exactly this
ordered list of key/message pairs. -/
def validate_parameters (validTypes validFormats : List String) (p : Params) :
    List (String × String) :=
  errEntry "focal_length" (focal_length_error p)
  ++ errEntry "rings" (rings_error p)
  ++ errEntry "punch_diameter" (punch_diameter_error p)
  ++ errEntry "wavelength" (wavelength_error p)
  ++ errEntry "output_resolution" (output_resolution_error p)
  ++ errEntry "type" (type_error validTypes p)
  ++ errEntry "output_format" (output_format_error validFormats p)

/-- The fields `validate_parameters` actually examines, in source order. -/
def checkedFields : List String :=
  ["focal_length", "rings", "punch_diameter", "wavelength",
   "output_resolution", "type", "output_format"]

/-- Dispatcher from a field name to its check in `validate_parameters`. -/
def fieldError (validTypes validFormats : List String) (p : Params) : String → Option String
  | "focal_length" => focal_length_error p
  | "rings" => rings_error p
  | "punch_diameter" => punch_diameter_error p
  | "wavelength" => wavelength_error p
  | "output_resolution" => output_resolution_error p
  | "type" => type_error validTypes p
  | "output_format" => output_format_error validFormats p
  | _ => none

/-- Keys of `Config.VALID_TYPES` (`config/config.py:44-49`). -/
def configValidTypes : List String := ["PLATE", "SIEVE", "PHOTON", "GRID"]

/-- `Config.VALID_OUTPUT_FORMATS` (`config/config.py:50`). -/
def configValidFormats : List String := ["PNG", "TIFF", "PDF"]

/-- `Config.DEFAULT_PARAMS` (`config/config.py:27-41`). -/
def defaultParams : Params :=
  [("focal_length", .VInt 210),
   ("rings", .VInt 7),
   ("punch_diameter", .VRat 20),
   ("padding", .VRat 10),
   ("magnification", .VRat 1),
   ("wavelength", .VRat (Rat.mk' 7 12500)),
   ("sieve_scale", .VRat (Rat.mk' 3 2)),
   ("sieve_space", .VRat (Rat.mk' 1 25)),
   ("type", .VStr "PLATE"),
   ("dup_focal", .VInt 180),
   ("negative_mode", .VBool false),
   ("output_format", .VStr "PNG"),
   ("output_resolution", .VInt 600)]

/-- One left-to-right scan of `re.sub` with a literal pattern (the token
patterns of `create_temp_args_file` are `re.escape`d, hence literal): at each
position, if the pattern matches, emit the replacement and skip the match;
otherwise emit the character.  The emitted replacement is never rescanned.
`fuel` is an upper bound on the number of characters still to examine; each
step consumes at least one character, so fuel `l.length` is always enough. -/
def reSubGo (pat rep : List Char) : Nat → List Char → List Char
  | _, [] => []
  | 0, l => l
  | fuel + 1, c :: cs =>
    if pat ≠ [] ∧ pat.isPrefixOf (c :: cs) then
      rep ++ reSubGo pat rep fuel ((c :: cs).drop pat.length)
    else
      c :: reSubGo pat rep fuel cs

/-- `pattern.sub(rep, s)` for a literal pattern (`models/zone_plate.py:64-65`). -/
def reSub (pat rep l : List Char) : List Char :=
  reSubGo pat rep l.length l

/-- The token for parameter key `k`: open brace, open brace, key, close
brace, close brace — `models/zone_plate.py:64`. -/
def tokenChars (k : String) : List Char :=
  ("\x7b\x7b" ++ k ++ "\x7d\x7d").toList

/-- The token-replacement loop of `ZonePlateGenerator.create_temp_args_file`
(`models/zone_plate.py:61-65`): for each `(key, value)` of the parameter
dict in insertion order, replace every occurrence of the key's token with
`str(value)` in the result of the previous pass.  (The surrounding file I/O —
reading the template, writing the temp file — is handled in
`generate_image`'s file-system model below.) -/
def create_temp_args_content (template : String) (params : Params) : String :=
  String.mk (params.foldl
    (fun acc kv => reSub (tokenChars kv.1) (pyStr kv.2).toList acc) template.toList)

/-- Model of Python `str.lower()` (the strings involved are ASCII). -/
def pyLower (s : String) : String :=
  String.mk (s.toList.map Char.toLower)

/-- Model of Python `str.upper()` (the strings involved are ASCII). -/
def pyUpper (s : String) : String :=
  String.mk (s.toList.map Char.toUpper)

/-- The rendering of `negative_mode` used by the legacy
`ZonePlateGenerator.create_postscript_content` (`app.py:201`):
`str(params["negative_mode"]).lower()`. -/
def pyStrLower (v : PyVal) : String :=
  pyLower (pyStr v)

/-- A stored download-token record (`controllers/main.py:98-101`):
the bound artifact filename and the expiry time (`time.time() + 300`). -/
structure TokenRec where
  filename : String
  expires : Rat
deriving DecidableEq, Repr

/-- `session['download_tokens']`: a dict from token string to record. -/
abbrev TokenMap := AList String TokenRec

/-- Token issue in the `generate` route (`controllers/main.py:90-102`):
store `{filename, expires: now + 300}` under the fresh token. -/
def issueToken (m : TokenMap) (token filename : String) (now : Rat) : TokenMap :=
  aset m token ⟨filename, now + 300⟩

/-- Result of the token-checking part of the `download` route. -/
inductive TokenResult where
  | ok (filename : String)
  | unknown
  | expired
deriving DecidableEq, Repr

/-- The token lifecycle steps of the `download` route
(`controllers/main.py:124-144`): absent token → `Unknown`; expired token
(`now > expires`) → `Expired`, entry popped; otherwise the entry is popped
and the bound filename returned. -/
def consume (m : TokenMap) (token : String) (now : Rat) : TokenResult × TokenMap :=
  match alookup m token with
  | none => (.unknown, m)
  | some r =>
    if now > r.expires then (.expired, aerase m token)
    else (.ok r.filename, aerase m token)

/-- `cleanup_expired_tokens` (`controllers/main.py:195-210`): pop every token
with `current_time > expires`. -/
def sweepTokens (m : TokenMap) (now : Rat) : TokenMap :=
  m.filter (fun e => ! decide (now > e.2.expires))

/-- The keys of a dict are pairwise distinct. -/
def KeysNodup {κ β : Type} (m : AList κ β) : Prop :=
  (m.map Prod.fst).Nodup

/-- The managed output directory's contents: filename ↦ size in bytes. -/
abbrev Files := AList String Nat

/-- `path.exists()` within the output directory. -/
def fileExists (fs : Files) (name : String) : Bool :=
  (alookup fs name).isSome

/-- Outcome of the `download` route (`controllers/main.py:116-174`), as far
as the token map and output directory are observable. -/
inductive DlOutcome where
  | deniedUnknown
  | deniedExpired
  | fileMissing
  | served (filename : String)
deriving DecidableEq, Repr

/-- HTTP status the route answers with in each outcome: both token failures
abort with 403, a missing artifact file aborts with 404. -/
def dlStatus : DlOutcome → Nat
  | .deniedUnknown => 403
  | .deniedExpired => 403
  | .fileMissing => 404
  | .served _ => 200

/-- The `download` route (`controllers/main.py:116-174`): check and pop the
token (`consume` above), then — only after the pop — check that the bound
file exists (`main.py:146-151`); on success the file is sent and deleted by
the `after_this_request` callback. -/
def download (m : TokenMap) (token : String) (now : Rat) (fs : Files) :
    DlOutcome × TokenMap × Files :=
  match consume m token now with
  | (.unknown, m') => (.deniedUnknown, m', fs)
  | (.expired, m') => (.deniedExpired, m', fs)
  | (.ok fn, m') =>
    if fileExists fs fn then (.served fn, m', aerase fs fn)
    else (.fileMissing, m', fs)

/-- Split a path string into `/`-separated segments. -/
def splitSegsCh : List Char → List (List Char)
  | [] => [[]]
  | c :: cs =>
    if c = '/' then [] :: splitSegsCh cs
    else
      match splitSegsCh cs with
      | [] => [[c]]
      | s :: rest => (c :: s) :: rest

/-- Segments of a path string. -/
def pathSegs (s : String) : List String :=
  (splitSegsCh s.toList).map (fun cs => String.mk cs)

/-- One step of operating-system path resolution: `..` pops a segment,
`.` and empty segments are ignored, anything else descends. -/
def normStep (acc : List String) (seg : String) : List String :=
  if seg = ".." then acc.dropLast
  else if seg = "." then acc
  else if seg = "" then acc
  else acc ++ [seg]

/-- Resolve a relative segment list against a base directory. -/
def normSegs (base : List String) (segs : List String) : List String :=
  segs.foldl normStep base

/-- The file actually touched by `self.output_dir / filename`
(`models/zone_plate.py:131`, likewise `OUTPUT_DIR / filename` in
`controllers/main.py:146`), after the operating system resolves the joined
path: a `pathlib` join with an absolute right side discards the left side,
and `..` segments climb out of the directory.  `filename` is used as given —
the method applies no sanitization. -/
def outputPathOf (outDir : List String) (filename : String) : List String :=
  if filename.toList.head? = some '/' then normSegs [] (pathSegs filename)
  else normSegs outDir (pathSegs filename)

/-- Boolean prefix test on segment lists: the touched path stays inside the
managed directory exactly when the directory's segments are a prefix. -/
def isPrefixOfB : List String → List String → Bool
  | [], _ => true
  | _ :: _, [] => false
  | a :: as, b :: bs => a == b && isPrefixOfB as bs

/-- `ZonePlateGenerator.delete_file` (`models/zone_plate.py:121-141`):
resolve `output_dir / filename`, unlink it when it exists (returning `true`),
return `false` when absent; exceptions are logged and yield `false`. -/
def delete_file (outDir : List String) (filename : String)
    (fs : AList (List String) Nat) : Bool × AList (List String) Nat :=
  let target := outputPathOf outDir filename
  if (alookup fs target).isSome then (true, aerase fs target) else (false, fs)

/-- Observable outcome of the Ghostscript run inside `generate_image`
(`models/zone_plate.py:210-258`): either `subprocess.run` returns (with a
return code, and with the declared output file written — `some size` — or
not), or it raises `subprocess.SubprocessError` (which includes
`TimeoutExpired`, caught at line 253), or it raises some other exception
(for example `OSError`, caught by the outer handler at line 256). -/
inductive GsOutcome where
  | completed (returncode : Int) (outputSize : Option Nat)
  | subprocessError
  | raisedOther
deriving DecidableEq, Repr

/-- Relative path of the temporary args file created by
`create_temp_args_file` (`models/zone_plate.py:51-52`). -/
def tempArgsName (sessionId : String) : String :=
  "temp/zone_plate_args_" ++ sessionId ++ ".ps"

/-- One row of the `format_config` dispatch dictionary
(`models/zone_plate.py:171-175`). -/
structure FormatCfg where
  device : String
  extension : String
deriving DecidableEq, Repr

/-- The `format_config` dictionary lookup (`models/zone_plate.py:171-181`);
`none` is the `ValueError` raised for an unsupported format. -/
def format_config : String → Option FormatCfg
  | "PNG" => some ⟨"png16m", ".png"⟩
  | "TIFF" => some ⟨"tiff24nc", ".tiff"⟩
  | "PDF" => some ⟨"pdfwrite", ".pdf"⟩
  | _ => none

/-- The keyword arguments of the `subprocess.run` invocation in
`generate_image` (`models/zone_plate.py:214-221`), field by field.  `timeout`
is `none` because the call passes no `timeout=` keyword argument. -/
structure SubprocessRunCall where
  args : List String
  stdoutPipe : Bool
  stderrPipe : Bool
  text : Bool
  check : Bool
  shell : Bool
  timeout : Option Nat
deriving DecidableEq, Repr

/-- The `subprocess.run` call of `generate_image`
(`models/zone_plate.py:214-221`): pipes for stdout/stderr, `text=True`,
`check=False`, `shell=False`, and no `timeout` keyword. -/
def gsSubprocessRun (gsArgs : List String) : SubprocessRunCall :=
  { args := gsArgs, stdoutPipe := true, stderrPipe := true,
    text := true, check := false, shell := false, timeout := none }

/-- `Config.GS_TIMEOUT = int(os.environ.get('GS_TIMEOUT', 120))`
(`config/config.py:21`); `none` models `int` raising on a malformed value. -/
def gsTimeoutConfig (env : Option String) : Option Int :=
  match env with
  | none => some 120
  | some s => pyIntOfChars s.toList

/-- The name of the declared output file (`models/zone_plate.py:162-164`
and `183`): `zone_plate_{type.lower()}_{timestamp}_{unique_id}{extension}`. -/
def outputName (ty timestamp uniqueId : String) (fc : FormatCfg) : String :=
  "zone_plate_" ++ pyLower ty ++ "_" ++ timestamp ++ "_" ++ uniqueId ++ fc.extension

/-- `ZonePlateGenerator.generate_image` (`models/zone_plate.py:143-268`),
with the file system restricted to the names it touches (the temporary args
file and the declared output file, as name ↦ size) and the Ghostscript run
given as an outcome oracle.  Mirrors the source's control flow:
validation failure returns before any file is created; the `type` string is
read for the base name before the temp file is written; the temp args file
is written; the format dispatch, resolution access and subprocess run follow,
and every path from there runs the `finally` block, which unlinks the temp
file.  On success the source returns `str(output_file)`; the model returns
the output file's name within the output directory. -/
def generate_image (validTypes validFormats : List String) (p : Params)
    (template : String) (sessionId timestamp uniqueId : String)
    (outcome : GsOutcome) (fs : Files) : Option String × Files :=
  if validate_parameters validTypes validFormats p ≠ [] then (none, fs)
  else
    match alookup p "type" with
    | some (.VStr ty) =>
      let temp := tempArgsName sessionId
      let fs1 := aset fs temp (create_temp_args_content template p).length
      let fin := fun (r : Option String) (f : Files) => (r, aerase f temp)
      match alookup p "output_format" with
      | some (.VStr fmtRaw) =>
        match format_config (pyUpper fmtRaw) with
        | none => fin none fs1
        | some fc =>
          let outName := outputName ty timestamp uniqueId fc
          match alookup p "output_resolution" with
          | none => fin none fs1
          | some resv =>
            match pyInt resv with
            | none => fin none fs1
            | some _res =>
              match outcome with
              | .subprocessError => fin none fs1
              | .raisedOther => fin none fs1
              | .completed rc produced =>
                let fs2 := match produced with
                  | some sz => aset fs1 outName sz
                  | none => fs1
                if rc ≠ 0 then fin none fs2
                else if fileExists fs2 outName then fin (some outName) fs2
                else fin none fs2
      | _ => fin none fs1
    | _ => (none, fs)

/-! ### Helper lemmas -/

theorem errEntry_eq_nil (k : String) (o : Option String) :
    errEntry k o = [] ↔ o = none := by
  cases o <;> simp [errEntry]

theorem errEntry_map_fst (k : String) (o : Option String) :
    (errEntry k o).map Prod.fst = if o.isSome then [k] else [] := by
  cases o <;> rfl

theorem fieldError_focal (vt vf : List String) (p : Params) :
    fieldError vt vf p "focal_length" = focal_length_error p := rfl

theorem fieldError_rings (vt vf : List String) (p : Params) :
    fieldError vt vf p "rings" = rings_error p := rfl

theorem fieldError_punch (vt vf : List String) (p : Params) :
    fieldError vt vf p "punch_diameter" = punch_diameter_error p := rfl

theorem fieldError_wavelength (vt vf : List String) (p : Params) :
    fieldError vt vf p "wavelength" = wavelength_error p := rfl

theorem fieldError_resolution (vt vf : List String) (p : Params) :
    fieldError vt vf p "output_resolution" = output_resolution_error p := rfl

theorem fieldError_type (vt vf : List String) (p : Params) :
    fieldError vt vf p "type" = type_error vt p := rfl

theorem fieldError_format (vt vf : List String) (p : Params) :
    fieldError vt vf p "output_format" = output_format_error vf p := rfl

theorem alookup_mem {κ β : Type} [DecidableEq κ] {m : AList κ β} {k : κ} {v : β}
    (h : alookup m k = some v) : (k, v) ∈ m := by
  induction m with
  | nil => simp [alookup] at h
  | cons e t ih =>
    by_cases he : e.1 = k
    · simp only [alookup] at h
      rw [if_pos he] at h
      cases h
      have hek : (k, e.2) = e := by cases e; simp_all
      rw [hek]
      exact List.mem_cons_self _ _
    · simp only [alookup] at h
      rw [if_neg he] at h
      exact List.mem_cons_of_mem _ (ih h)

theorem alookup_filter_of_not_mem {κ β : Type} [DecidableEq κ]
    (f : κ × β → Bool) (m : AList κ β) (k : κ)
    (h : k ∉ m.map Prod.fst) : alookup (m.filter f) k = none := by
  induction m with
  | nil => rfl
  | cons e t ih =>
    simp only [List.map_cons, List.mem_cons] at h
    push_neg at h
    by_cases hf : f e
    · simp only [List.filter_cons, hf, if_pos, alookup]
      rw [if_neg (fun hh => h.1 hh.symm)]
      exact ih h.2
    · simp only [List.filter_cons]
      rw [if_neg (by simp [hf])]
      exact ih h.2

theorem alookup_sweep_of_expired {m : TokenMap} {tok : String} {r : TokenRec}
    {now : Rat} (hnd : KeysNodup m) (h : alookup m tok = some r)
    (hexp : now > r.expires) : alookup (sweepTokens m now) tok = none := by
  induction m with
  | nil => simp [alookup] at h
  | cons e t ih =>
    have hnd' : KeysNodup t := (List.nodup_cons.mp hnd).2
    by_cases he : e.1 = tok
    · simp only [alookup] at h
      rw [if_pos he] at h
      cases h
      have hkey : tok ∉ t.map Prod.fst := by
        have := (List.nodup_cons.mp hnd).1
        rwa [he] at this
      simp only [sweepTokens, List.filter_cons]
      rw [if_neg (by simp [hexp])]
      exact alookup_filter_of_not_mem _ t tok hkey
    · simp only [alookup] at h
      rw [if_neg he] at h
      simp only [sweepTokens, List.filter_cons]
      by_cases hk : ! decide (now > e.2.expires)
      · rw [if_pos hk]
        simp only [alookup]
        rw [if_neg he]
        exact ih hnd' h
      · rw [if_neg hk]
        exact ih hnd' h

theorem sweep_keeps_only_unexpired (m : TokenMap) (now : Rat) (tok : String)
    (r : TokenRec) (h : alookup (sweepTokens m now) tok = some r) :
    ¬ now > r.expires := by
  have hmem := alookup_mem h
  have := List.of_mem_filter hmem
  simpa using this

theorem reSubGo_self (pat : List Char) (hp : pat ≠ []) :
    ∀ (fuel : Nat) (l : List Char), l.length ≤ fuel → reSubGo pat pat fuel l = l := by
  intro fuel
  induction fuel with
  | zero =>
    intro l h
    have : l = [] := List.eq_nil_of_length_eq_zero (Nat.le_zero.mp h)
    subst this
    rfl
  | succ n ih =>
    intro l h
    match l with
    | [] => rfl
    | c :: cs =>
      by_cases hpre : pat.isPrefixOf (c :: cs)
      · have hpfx : pat <+: (c :: cs) := by
          exact (List.isPrefixOf_iff_prefix).mp hpre
        obtain ⟨t, ht⟩ := hpfx
        have hdrop : (c :: cs).drop pat.length = t := by
          rw [← ht, List.drop_left]
        have hlen : t.length ≤ n := by
          have h1 : pat.length + t.length = cs.length + 1 := by
            have := congrArg List.length ht
            simpa using this
          have h2 : 1 ≤ pat.length := by
            cases pat with
            | nil => exact absurd rfl hp
            | cons a as => simp
          have h3 : cs.length + 1 ≤ n + 1 := by simpa using h
          omega
        show reSubGo pat pat (n + 1) (c :: cs) = c :: cs
        rw [reSubGo, if_pos ⟨hp, hpre⟩, hdrop, ih t hlen, ht]
      · show reSubGo pat pat (n + 1) (c :: cs) = c :: cs
        rw [reSubGo, if_neg (by simp [hpre])]
        have : cs.length ≤ n := by
          simpa using Nat.le_of_succ_le_succ h
        rw [ih cs this]

theorem validate_empty_iff (vt vf : List String) (p : Params) :
    validate_parameters vt vf p = [] ↔
      (focal_length_error p = none ∧ rings_error p = none ∧
       punch_diameter_error p = none ∧ wavelength_error p = none ∧
       output_resolution_error p = none ∧ type_error vt p = none ∧
       output_format_error vf p = none) := by
  simp [validate_parameters, List.append_eq_nil, errEntry_eq_nil, and_assoc]

theorem type_error_shape {vt : List String} {p : Params}
    (h : type_error vt p = none) :
    ∃ s, alookup p "type" = some (.VStr s) ∧ vt.contains s = true := by
  by_cases hc : (match alookup p "type" with
      | some (.VStr s) => vt.contains s
      | _ => false)
  · cases hl : alookup p "type" with
    | none => rw [hl] at hc; simp at hc
    | some v =>
      cases v with
      | VStr s => exact ⟨s, rfl, by rw [hl] at hc; simpa using hc⟩
      | VInt n => rw [hl] at hc; simp at hc
      | VRat q => rw [hl] at hc; simp at hc
      | VBool b => rw [hl] at hc; simp at hc
  · rw [type_error, if_neg hc] at h
    simp at h

theorem output_resolution_int_of_valid {p : Params} {v : PyVal}
    (h : output_resolution_error p = none)
    (hl : alookup p "output_resolution" = some v) :
    ∃ r : Int, pyInt v = some r := by
  rw [output_resolution_error, pgetD, hl] at h
  simp only [Option.getD_some] at h
  cases hv : pyInt v with
  | none => rw [hv] at h; simp at h
  | some r => exact ⟨r, rfl⟩

theorem splitSegsCh_no_slash (l : List Char) (h : '/' ∉ l) :
    splitSegsCh l = [l] := by
  induction l with
  | nil => rfl
  | cons c cs ih =>
    have hc : c ≠ '/' := fun hh => h (hh ▸ List.mem_cons_self c cs)
    have hcs : '/' ∉ cs := fun hh => h (List.mem_cons_of_mem c hh)
    rw [splitSegsCh, if_neg hc, ih hcs]

theorem isPrefixOfB_append (l t : List String) : isPrefixOfB l (l ++ t) = true := by
  induction l with
  | nil => rfl
  | cons a as ih => simp [isPrefixOfB, ih]

theorem alookup_aset_ne {κ β : Type} [DecidableEq κ]
    (m : AList κ β) (k k' : κ) (v : β) (h : k' ≠ k) :
    alookup (aset m k v) k' = alookup m k' := by
  induction m with
  | nil =>
    simp only [aset, alookup]
    rw [if_neg (fun hh => h hh.symm)]
  | cons e t ih =>
    by_cases he : e.1 = k
    · simp only [aset]
      rw [if_pos he]
      simp only [alookup]
      rw [if_neg (fun hh => h hh.symm), if_neg (by rw [he]; exact fun hh => h hh.symm)]
    · simp only [aset]
      rw [if_neg he]
      simp only [alookup]
      by_cases hk : e.1 = k'
      · rw [if_pos hk, if_pos hk]
      · rw [if_neg hk, if_neg hk]
        exact ih

/-! ### Claim theorems -/

/-- C2: a token stored in the map (as `issue` stores it, binding the filename
with expiry `now + 300`) is consumed successfully exactly once: a first
consume before expiry returns the bound filename and removes the entry, and
any later consume of the same token fails with `Unknown`. -/
theorem issued_token_consumed_exactly_once
    (m : TokenMap) (tok tok' fn fn' : String) (exp now now' tIssue : Rat)
    (hl : alookup m tok = some ⟨fn, exp⟩) (hfresh : ¬ now > exp) :
    alookup (issueToken m tok' fn' tIssue) tok' = some ⟨fn', tIssue + 300⟩
    ∧ consume m tok now = (.ok fn, aerase m tok)
    ∧ (consume (aerase m tok) tok now').1 = .unknown := by
  refine ⟨alookup_aset_self m tok' ⟨fn', tIssue + 300⟩, ?_, ?_⟩
  · unfold consume
    rw [hl]
    simp [hfresh]
  · unfold consume
    rw [alookup_aerase_self]

/-- C2 witness: concrete single-token map, consumed at time 50 (expiry 100),
then again at time 999. -/
theorem issued_token_consumed_exactly_once_witness :
    alookup (issueToken [(("t0" : String), (⟨"f.png", 100⟩ : TokenRec))] "t1" "a.png" 7) "t1"
        = some ⟨"a.png", 7 + 300⟩
    ∧ consume [(("t0" : String), (⟨"f.png", 100⟩ : TokenRec))] "t0" 50
        = (.ok "f.png", aerase [(("t0" : String), (⟨"f.png", 100⟩ : TokenRec))] "t0")
    ∧ (consume (aerase [(("t0" : String), (⟨"f.png", 100⟩ : TokenRec))] "t0") "t0" 999).1
        = .unknown :=
  issued_token_consumed_exactly_once
    [("t0", ⟨"f.png", 100⟩)] "t0" "t1" "f.png" "a.png" 100 50 999 7
    (by decide) (by decide)

/-- C4: consuming a token whose expiry has passed fails with `Expired` and
removes the entry (a later consume gives `Unknown`), and the sweep drops that
entry too — everything surviving a sweep at time `now` is unexpired. -/
theorem expired_token_consume_and_sweep
    (m : TokenMap) (tok fn : String) (exp now now' : Rat)
    (hnd : KeysNodup m) (hl : alookup m tok = some ⟨fn, exp⟩) (hexp : now > exp) :
    consume m tok now = (.expired, aerase m tok)
    ∧ (consume (aerase m tok) tok now').1 = .unknown
    ∧ alookup (sweepTokens m now) tok = none
    ∧ ∀ tok' r', alookup (sweepTokens m now) tok' = some r' → ¬ now > r'.expires := by
  refine ⟨?_, ?_, ?_, ?_⟩
  · unfold consume
    rw [hl]
    simp [hexp]
  · unfold consume
    rw [alookup_aerase_self]
  · exact alookup_sweep_of_expired hnd hl hexp
  · intro tok' r' h
    exact sweep_keeps_only_unexpired m now tok' r' h

/-- C4 witness: two-token map, one expired at time 11, one not. -/
theorem expired_token_consume_and_sweep_witness :
    consume [(("t0" : String), (⟨"f.png", 10⟩ : TokenRec)), ("t1", ⟨"g.png", 1000⟩)] "t0" 11
        = (.expired, aerase [(("t0" : String), (⟨"f.png", 10⟩ : TokenRec)), ("t1", ⟨"g.png", 1000⟩)] "t0")
    ∧ (consume (aerase [(("t0" : String), (⟨"f.png", 10⟩ : TokenRec)), ("t1", ⟨"g.png", 1000⟩)] "t0") "t0" 12).1
        = .unknown
    ∧ alookup (sweepTokens [(("t0" : String), (⟨"f.png", 10⟩ : TokenRec)), ("t1", ⟨"g.png", 1000⟩)] 11) "t0"
        = none :=
  ⟨(expired_token_consume_and_sweep
      [("t0", ⟨"f.png", 10⟩), ("t1", ⟨"g.png", 1000⟩)] "t0" "f.png" 10 11 12
      (by unfold KeysNodup; decide) (by decide) (by decide)).1,
   (expired_token_consume_and_sweep
      [("t0", ⟨"f.png", 10⟩), ("t1", ⟨"g.png", 1000⟩)] "t0" "f.png" 10 11 12
      (by unfold KeysNodup; decide) (by decide) (by decide)).2.1,
   (expired_token_consume_and_sweep
      [("t0", ⟨"f.png", 10⟩), ("t1", ⟨"g.png", 1000⟩)] "t0" "f.png" 10 11 12
      (by unfold KeysNodup; decide) (by decide) (by decide)).2.2.1⟩

/-- C10: on a valid, unexpired token the route pops the token before the
artifact existence check, so with the file missing it answers 404 while the
token is already gone, and retrying the same token is denied as unknown. -/
theorem token_removed_before_file_check
    (m : TokenMap) (tok fn : String) (exp now now' : Rat) (fs fs' : Files)
    (hl : alookup m tok = some ⟨fn, exp⟩) (hfresh : ¬ now > exp)
    (hmiss : fileExists fs fn = false) :
    download m tok now fs = (.fileMissing, aerase m tok, fs)
    ∧ (download (aerase m tok) tok now' fs').1 = .deniedUnknown
    ∧ dlStatus .fileMissing = 404 ∧ dlStatus .deniedUnknown = 403 := by
  refine ⟨?_, ?_, rfl, rfl⟩
  · unfold download consume
    rw [hl]
    simp [hfresh, hmiss]
  · unfold download consume
    rw [alookup_aerase_self]

/-- C10 witness: valid token bound to a file absent from the output dir. -/
theorem token_removed_before_file_check_witness :
    download [(("t0" : String), (⟨"f.png", 100⟩ : TokenRec))] "t0" 50 [("other.png", 9)]
        = (.fileMissing, aerase [(("t0" : String), (⟨"f.png", 100⟩ : TokenRec))] "t0",
           [("other.png", 9)])
    ∧ (download (aerase [(("t0" : String), (⟨"f.png", 100⟩ : TokenRec))] "t0") "t0" 60
        [("other.png", 9)]).1 = .deniedUnknown :=
  ⟨(token_removed_before_file_check
      [("t0", ⟨"f.png", 100⟩)] "t0" "f.png" 100 50 60 [("other.png", 9)] [("other.png", 9)]
      (by decide) (by decide) (by decide)).1,
   (token_removed_before_file_check
      [("t0", ⟨"f.png", 100⟩)] "t0" "f.png" 100 50 60 [("other.png", 9)] [("other.png", 9)]
      (by decide) (by decide) (by decide)).2.1⟩

/-- C3: the `subprocess.run` call of `generate_image` passes no `timeout`
keyword argument at all, while `Config.GS_TIMEOUT` defaults to 120 seconds —
the declared timeout is never wired into the render invocation, so no
wall-clock bound and no forcible kill exist on this call. -/
theorem gs_run_invoked_without_timeout (gsArgs : List String) :
    (gsSubprocessRun gsArgs).timeout = none ∧ gsTimeoutConfig none = some 120 :=
  ⟨rfl, rfl⟩

/-- C1 (counterexample): with every other field at its default, a negative
`padding` produces an empty error dict — `validate_parameters` has no
`padding` check at all, so it does not return the key `padding` as the
claim requires. -/
theorem validate_ignores_negative_padding :
    alookup (aset defaultParams "padding" (.VRat (Rat.mk' (-1) 1))) "padding" = some (.VRat (Rat.mk' (-1) 1))
    ∧ validate_parameters configValidTypes configValidFormats
        (aset defaultParams "padding" (.VRat (Rat.mk' (-1) 1))) = []
    ∧ (validate_parameters configValidTypes configValidFormats
        (aset defaultParams "padding" (.VRat (Rat.mk' (-1) 1)))).map Prod.fst ≠ ["padding"] := by
  refine ⟨by decide, by decide, by decide⟩

/-- C1 (amended): `validate_parameters` is empty exactly when the seven
fields it examines (`focal_length`, `rings`, `punch_diameter`, `wavelength`,
`output_resolution`, `type`, `output_format`) all pass their checks, and its
error keys are exactly the examined fields that fail; `padding` (like
`magnification`, `sieve_scale`, `sieve_space`, `dup_focal`, `negative_mode`)
is never validated and never appears as an error key. -/
theorem validate_parameters_keys_are_failing_checked_fields
    (vt vf : List String) (p : Params) :
    (validate_parameters vt vf p = [] ↔ ∀ f ∈ checkedFields, fieldError vt vf p f = none)
    ∧ (validate_parameters vt vf p).map Prod.fst
        = checkedFields.filter (fun f => (fieldError vt vf p f).isSome)
    ∧ "padding" ∉ (validate_parameters vt vf p).map Prod.fst := by
  have hkeys : (validate_parameters vt vf p).map Prod.fst
      = checkedFields.filter (fun f => (fieldError vt vf p f).isSome) := by
    simp only [validate_parameters, List.map_append, errEntry_map_fst, checkedFields,
      List.filter_cons, List.filter_nil, fieldError_focal, fieldError_rings,
      fieldError_punch, fieldError_wavelength, fieldError_resolution, fieldError_type,
      fieldError_format]
    split_ifs <;> simp_all
  refine ⟨?_, hkeys, ?_⟩
  · rw [validate_empty_iff]
    simp [checkedFields, List.forall_mem_cons, fieldError_focal, fieldError_rings,
      fieldError_punch, fieldError_wavelength, fieldError_resolution, fieldError_type,
      fieldError_format, and_assoc]
  · rw [hkeys]
    intro hmem
    have := List.mem_of_mem_filter hmem
    simp [checkedFields] at this

/-- C7 (counterexample): substitution is sequential per key, so a parameter
value that contains the token of a key substituted later is itself
re-substituted — the value of `a` (the token of `b`) does not survive
verbatim but becomes `X`. -/
theorem token_valued_parameter_resubstituted :
    create_temp_args_content "\x7b\x7ba\x7d\x7d"
        [("a", .VStr "\x7b\x7bb\x7d\x7d"), ("b", .VStr "X")] = "X"
    ∧ ("X" : String) ≠ "\x7b\x7bb\x7d\x7d" := by
  refine ⟨by decide, by decide⟩

/-- C7 (amended): each key's replacement pass is a single non-recursive
left-to-right scan — substituting a key's own token for itself is the
identity, so a replacement is never rescanned within its own pass — but the
passes run sequentially over the parameter list, so a value containing the
token of a key that occurs later in the parameter order is re-substituted by
that later pass. -/
theorem substitution_single_pass_per_key_sequential_across_keys :
    (∀ (template k : String),
        create_temp_args_content template
          [(k, .VStr ("\x7b\x7b" ++ k ++ "\x7d\x7d"))] = template)
    ∧ create_temp_args_content "\x7b\x7ba\x7d\x7d"
        [("a", .VStr "\x7b\x7bb\x7d\x7d"), ("b", .VStr "X")] = "X" := by
  constructor
  · intro template k
    have hpat : tokenChars k ≠ [] := by
      intro hc
      have h1 : ("\x7b\x7b" ++ k ++ "\x7d\x7d").toList.length = 0 := by
        rw [show ("\x7b\x7b" ++ k ++ "\x7d\x7d").toList = tokenChars k from rfl, hc]
        rfl
      rw [show ("\x7b\x7b" ++ k ++ "\x7d\x7d").toList.length
          = ("\x7b\x7b" ++ k ++ "\x7d\x7d").length from rfl] at h1
      simp only [String.length_append] at h1
      have h2 : ("\x7b\x7b" : String).length = 2 := rfl
      have h3 : ("\x7d\x7d" : String).length = 2 := rfl
      rw [h2, h3] at h1
      omega
    show String.mk (reSub (tokenChars k)
        (pyStr (.VStr ("\x7b\x7b" ++ k ++ "\x7d\x7d"))).toList template.toList) = template
    rw [show (pyStr (.VStr ("\x7b\x7b" ++ k ++ "\x7d\x7d"))).toList = tokenChars k from rfl]
    rw [show reSub (tokenChars k) (tokenChars k) template.toList
        = reSubGo (tokenChars k) (tokenChars k) template.toList.length template.toList from rfl]
    rw [reSubGo_self (tokenChars k) hpat template.toList.length template.toList le_rfl]
    cases template
    rfl
  · decide

/-- C8: with the default `negative_mode = False`, the token materializer
writes Python's `str(False)` — the capitalized `False` — into the document,
whereas the legacy `create_postscript_content` path lowercases it to
`false`; the two renderings disagree, and only the legacy one matches the
claimed canonical lowercase form. -/
theorem negative_mode_materializes_capitalized :
    create_temp_args_content "\x7b\x7bnegative_mode\x7d\x7d"
        [("negative_mode", .VBool false)] = "False"
    ∧ pyStrLower (.VBool false) = "false"
    ∧ ("False" : String) ≠ "false" := by
  refine ⟨by decide, by decide, by decide⟩

/-- C5: after any invocation of the pipeline that passes validation —
normal completion with any exit code, output produced or not,
`SubprocessError` (including `TimeoutExpired`), or any other exception —
the temporary materialized args file is gone: the `finally` block unlinks it
on every exit path. -/
theorem temp_args_file_removed_on_every_path
    (vt vf : List String) (p : Params) (template sid stamp uid : String)
    (outcome : GsOutcome) (fs : Files)
    (hval : validate_parameters vt vf p = []) :
    alookup ((generate_image vt vf p template sid stamp uid outcome fs).2)
      (tempArgsName sid) = none := by
  obtain ⟨ty, htyl, -⟩ :=
    type_error_shape ((validate_empty_iff vt vf p).mp hval).2.2.2.2.2.1
  simp only [generate_image]
  rw [if_neg (by simp [hval]), htyl]
  cases hof : alookup p "output_format" with
  | none => simp
  | some v =>
    cases v with
    | VInt n => simp
    | VRat q => simp
    | VBool b => simp
    | VStr fmt =>
      cases hfc : format_config (pyUpper fmt) with
      | none => simp [hfc]
      | some fc =>
        cases hres : alookup p "output_resolution" with
        | none => simp [hfc, hres]
        | some rv =>
          cases hint : pyInt rv with
          | none => simp [hfc, hres, hint]
          | some r =>
            cases outcome with
            | subprocessError => simp [hfc, hres, hint]
            | raisedOther => simp [hfc, hres, hint]
            | completed rc produced =>
              cases produced <;> simp [hfc, hres, hint] <;> split_ifs <;> simp

/-- C5 witness: the default parameters validate, and after a successful run
the temp args file for session `s1` is absent from the file system. -/
theorem temp_args_file_removed_on_every_path_witness :
    validate_parameters configValidTypes configValidFormats defaultParams = []
    ∧ alookup ((generate_image configValidTypes configValidFormats defaultParams
          "T" "s1" "20260101_000000" "ab12cd34" (.completed 0 (some 5)) []).2)
        (tempArgsName "s1") = none :=
  ⟨by decide,
   temp_args_file_removed_on_every_path configValidTypes configValidFormats
     defaultParams "T" "s1" "20260101_000000" "ab12cd34" (.completed 0 (some 5)) []
     (by decide)⟩

/-- C6 (counterexample): with exit code 0 and the declared output file
written with size 0 bytes, `generate_image` still reports success — the
claimed `OutputMissing` failure for an empty output file does not exist. -/
theorem empty_output_file_reported_success :
    (generate_image configValidTypes configValidFormats defaultParams "T" "s1"
        "20260101_000000" "ab12cd34" (.completed 0 (some 0)) []).1
      = some "zone_plate_plate_20260101_000000_ab12cd34.png"
    ∧ alookup ((generate_image configValidTypes configValidFormats defaultParams "T" "s1"
        "20260101_000000" "ab12cd34" (.completed 0 (some 0)) []).2)
        "zone_plate_plate_20260101_000000_ab12cd34.png" = some 0 := by
  refine ⟨by decide, by decide⟩

/-- C6 (amended): past validation, the run succeeds exactly when the process
exits 0 and the declared output file exists afterwards; the file's size is
never checked, so a zero-byte output still succeeds, and a missing output
despite exit code 0 yields `None` (there is no distinct `OutputMissing`
value — all failures return `None`). -/
theorem render_success_requires_exit_zero_and_existing_file
    (vt vf : List String) (p : Params) (template sid stamp uid : String) (fs : Files)
    (ty fmt : String) (fc : FormatCfg) (rv : PyVal)
    (hval : validate_parameters vt vf p = [])
    (hty : alookup p "type" = some (.VStr ty))
    (hfmt : alookup p "output_format" = some (.VStr fmt))
    (hfc : format_config (pyUpper fmt) = some fc)
    (hres : alookup p "output_resolution" = some rv)
    (hne : outputName ty stamp uid fc ≠ tempArgsName sid) :
    (∀ sz : Nat,
      (generate_image vt vf p template sid stamp uid (.completed 0 (some sz)) fs).1
        = some (outputName ty stamp uid fc))
    ∧ (alookup fs (outputName ty stamp uid fc) = none →
      (generate_image vt vf p template sid stamp uid (.completed 0 none) fs).1 = none) := by
  obtain ⟨r, hr⟩ := output_resolution_int_of_valid
    ((validate_empty_iff vt vf p).mp hval).2.2.2.2.1 hres
  constructor
  · intro sz
    simp only [generate_image]
    rw [if_neg (by simp [hval])]
    simp only [hty, hfmt, hfc, hres, hr]
    simp [fileExists]
  · intro hmiss
    simp only [generate_image]
    rw [if_neg (by simp [hval])]
    simp only [hty, hfmt, hfc, hres, hr]
    simp [fileExists, alookup_aset_ne _ _ _ _ hne, hmiss]

/-- C6 witness: with default parameters, a 7-byte output file yields success
with the expected name, and a missing output despite exit 0 yields `None`. -/
theorem render_success_requires_exit_zero_and_existing_file_witness :
    (generate_image configValidTypes configValidFormats defaultParams "T" "s1"
        "20260101_000000" "ab12cd34" (.completed 0 (some 7)) []).1
      = some (outputName "PLATE" "20260101_000000" "ab12cd34" ⟨"png16m", ".png"⟩)
    ∧ (generate_image configValidTypes configValidFormats defaultParams "T" "s1"
        "20260101_000000" "ab12cd34" (.completed 0 none) []).1 = none :=
  ⟨(render_success_requires_exit_zero_and_existing_file configValidTypes configValidFormats
      defaultParams "T" "s1" "20260101_000000" "ab12cd34" [] "PLATE" "PNG"
      ⟨"png16m", ".png"⟩ (.VInt 600)
      (by decide) (by decide) (by decide) (by decide) (by decide) (by decide)).1 7,
   (render_success_requires_exit_zero_and_existing_file configValidTypes configValidFormats
      defaultParams "T" "s1" "20260101_000000" "ab12cd34" [] "PLATE" "PNG"
      ⟨"png16m", ".png"⟩ (.VInt 600)
      (by decide) (by decide) (by decide) (by decide) (by decide) (by decide)).2 (by decide)⟩

/-- C9 (counterexample): `delete_file` joins the caller-supplied filename to
the output directory with no sanitization, so `../x` resolves to a path
outside the managed directory — and `delete_file` happily deletes that
outside file, returning `true`. -/
theorem delete_file_traverses_outside_output_dir :
    outputPathOf ["srv", "output"] "../x" = ["srv", "x"]
    ∧ isPrefixOfB ["srv", "output"] (outputPathOf ["srv", "output"] "../x") = false
    ∧ (delete_file ["srv", "output"] "../x" [(["srv", "x"], 3)]).1 = true := by
  refine ⟨by decide, by decide, by decide⟩

/-- C9 (amended): the store applies no sanitization — the raw filename is
joined under the output directory.  A filename that is a plain basename (no
path separator, not empty, not `.` or `..`) therefore stays inside the
managed directory, but inputs with separators or parent components escape it
(see the counterexample); in the deployed routes the filename always comes
from the server-issued token map, never directly from the requester. -/
theorem plain_basename_stays_inside_output_dir
    (outDir : List String) (fn : String)
    (h1 : '/' ∉ fn.toList) (h2 : fn ≠ "") (h3 : fn ≠ ".") (h4 : fn ≠ "..") :
    outputPathOf outDir fn = outDir ++ [fn]
    ∧ isPrefixOfB outDir (outputPathOf outDir fn) = true := by
  have hsegs : pathSegs fn = [fn] := by
    unfold pathSegs
    rw [splitSegsCh_no_slash fn.toList h1]
    cases fn
    rfl
  have hmain : outputPathOf outDir fn = outDir ++ [fn] := by
    unfold outputPathOf
    rw [if_neg ?hsl]
    · unfold normSegs
      rw [hsegs]
      simp only [List.foldl_cons, List.foldl_nil, normStep]
      rw [if_neg h4, if_neg h3, if_neg h2]
    case hsl =>
      intro hh
      apply h1
      cases hfl : fn.toList with
      | nil => rw [hfl] at hh; simp at hh
      | cons c cs =>
        rw [hfl] at hh
        simp only [List.head?] at hh
        injection hh with hc
        rw [← hc]
        exact List.mem_cons_self _ _
  exact ⟨hmain, by rw [hmain]; exact isPrefixOfB_append outDir [fn]⟩

/-- C9 amended witness: a generated artifact name resolves inside the output
directory. -/
theorem plain_basename_stays_inside_output_dir_witness :
    outputPathOf ["srv", "output"] "zone_plate_plate_1.png"
        = ["srv", "output"] ++ ["zone_plate_plate_1.png"]
    ∧ isPrefixOfB ["srv", "output"]
        (outputPathOf ["srv", "output"] "zone_plate_plate_1.png") = true :=
  plain_basename_stays_inside_output_dir ["srv", "output"] "zone_plate_plate_1.png"
    (by decide) (by decide) (by decide) (by decide)

end ZonePlate
